import Mathlib

/-!
Formal model of the OUROBOROS-ZERO repository (a self-contained replication
simulation harness).  Each Python component is shallowly embedded as pure
Lean functions:

* `DatabaseHandler` (src/database_handler.py): the SQLite `clones` table is
  modelled as a finite map `String → Option CloneRecord`; SQL INSERT / UPDATE
  become functional updates, a primary-key violation on INSERT becomes the
  caught-exception `false` return of `register_clone`.
* `QuantumReplicator` (src/quantum_replication.py): the in-memory
  `entanglement_pairs` and `quantum_state` dicts become function maps inside
  `QRState`.  Hash digests and random byte draws are passed in as oracle
  string arguments, since their values are opaque to every property below.
* `AIDecisionEngine` (src/ai_decision_engine.py): the scoring pipeline is
  pure closed-form arithmetic, embedded over `ℚ`.  Python `round(x, 3)`
  becomes `round3` (rounding to a multiple of 1/1000; tie behaviour differs
  from IEEE-754 banker rounding but no property depends on ties).
* `StealthModule` (src/stealth_operations.py): `random.shuffle` /
  `random.sample` are modelled by `sampleR`, which consumes an oracle list of
  naturals; per-host aliveness draws are an oracle `ℕ → ℚ`; the external
  `ipaddress` library call is modelled by its result, an `Option` of the host
  list (`none` = parse error).
* `OuroborosZero` (src/ouroboros_zero.py): orchestrator state is the record
  `OrchState`; `replicate_to_target` threads it explicitly.

Timestamps are opaque `String` arguments (`now`), mirroring
`datetime.now().isoformat()`.
-/

/-- Functional update of a string-keyed map, modelling Python dict item
assignment (`m[k] = v`) and deletion (`v = none`). -/
def setKey {α : Type} (m : String → Option α) (k : String) (v : Option α) :
    String → Option α :=
  fun x => if x = k then v else m x

/-! ## Persistence Layer (src/database_handler.py) -/

/-- One row of the `clones` table (schema in `_initialize_schema`,
src/database_handler.py lines 57-67).  `quantum_signature` is never written
by `register_clone`, hence stays `none` (SQL NULL). -/
structure CloneRecord where
  parent_id : Option String
  target_ip : Option String
  generation : ℕ
  created_at : String
  last_contact : String
  status : String
  quantum_signature : Option String
  deriving Repr, DecidableEq

/-- The `clones` table, keyed by primary key `clone_id`. -/
abbrev CloneDB := String → Option CloneRecord

/-- Python truthiness of the optional `parent_id` argument
(`... if parent_id else 0` in `register_clone`): `None` and the empty
string are falsy. -/
def parentTruthy : Option String → Bool
  | none => false
  | some s => decide (s ≠ "")

/-- DatabaseHandler.get_clone_generation (src/database_handler.py 177-194):
returns the stored generation, or 0 when the id is falsy or absent. -/
def DatabaseHandler.get_clone_generation (db : CloneDB) (clone_id : Option String) : ℕ :=
  match clone_id with
  | none => 0
  | some s =>
    if s = "" then 0
    else
      match db s with
      | some r => r.generation
      | none => 0

/-- DatabaseHandler.register_clone (src/database_handler.py 139-175):
generation = (parent's generation if parent truthy else 0) + 1, then INSERT
with status `active` and both timestamps = now.  An INSERT that violates the
`clone_id` primary key raises, is caught, and yields `false` with the table
unchanged. -/
def DatabaseHandler.register_clone (db : CloneDB) (clone_id : String)
    (parent_id : Option String) (target_ip : Option String) (now : String) :
    Bool × CloneDB :=
  let generation :=
    (if parentTruthy parent_id then DatabaseHandler.get_clone_generation db parent_id
     else 0) + 1
  match db clone_id with
  | some _ => (false, db)
  | none =>
    (true,
      setKey db clone_id
        (some ⟨parent_id, target_ip, generation, now, now, "active", none⟩))

/-- DatabaseHandler.update_clone_status (src/database_handler.py 196-214):
SQL UPDATE of status and last_contact; a silent no-op when the id has no
row. -/
def DatabaseHandler.update_clone_status (db : CloneDB) (clone_id status now : String) :
    CloneDB :=
  fun x =>
    if x = clone_id then
      (db x).map (fun r => { r with status := status, last_contact := now })
    else db x

/-- DatabaseHandler.terminate_clone (src/database_handler.py 216-224):
wrapper setting status to `terminated`. -/
def DatabaseHandler.terminate_clone (db : CloneDB) (clone_id now : String) : CloneDB :=
  DatabaseHandler.update_clone_status db clone_id "terminated" now

/-! ## Replication-State Manager (src/quantum_replication.py) -/

/-- One entry of the in-memory `entanglement_pairs` dict. -/
structure EntPair where
  parent : String
  key : String
  established_at : String
  deriving Repr, DecidableEq

/-- One entry of the in-memory `quantum_state` dict. -/
structure QState where
  coherence : ℚ
  entanglement_strength : ℚ
  superposition_active : Bool
  measurement_timestamp : String
  deriving Repr, DecidableEq

/-- In-memory state of a `QuantumReplicator` instance. -/
structure QRState where
  entanglement_pairs : String → Option EntPair
  quantum_state : String → Option QState

/-- QuantumReplicator._capture_quantum_state (src/quantum_replication.py
322-340): stores and returns a fresh state with coherence 0.99, strength
0.95, superposition true. -/
def QuantumReplicator.capture_quantum_state (st : QRState) (clone_id now : String) :
    QState × QRState :=
  let s : QState := ⟨99/100, 95/100, true, now⟩
  (s, { st with quantum_state := setKey st.quantum_state clone_id (some s) })

/-- Result dictionary of `check_clone_status`; the two dict shapes returned
by the Python code are merged into one record with optional fields. -/
structure StatusReport where
  healthy : Bool
  reason : Option String
  clone_id : Option String
  quantum_coherence : Option ℚ
  last_contact : Option String
  deriving Repr, DecidableEq

/-- QuantumReplicator.check_clone_status (src/quantum_replication.py
342-367): unhealthy with reason `No entanglement found` when the id is not
in the entanglement map; otherwise healthy with the cached coherence
(defaulting to 0) and a fresh last-contact timestamp. -/
def QuantumReplicator.check_clone_status (st : QRState) (clone_id now : String) :
    StatusReport :=
  match st.entanglement_pairs clone_id with
  | none => ⟨false, some "No entanglement found", none, none, none⟩
  | some _ =>
    ⟨true, none, some clone_id,
      some (match st.quantum_state clone_id with
            | some q => q.coherence
            | none => 0),
      some now⟩

/-- QuantumReplicator.repair_clone (src/quantum_replication.py 369-396):
when entangled, replaces the entanglement key (the fresh SHA-256 digest over
random bytes is the oracle argument `new_key`); in every case recaptures the
quantum state and returns success. -/
def QuantumReplicator.repair_clone (st : QRState) (clone_id new_key now : String) :
    Bool × QRState :=
  let st1 :=
    match st.entanglement_pairs clone_id with
    | some e =>
      { st with entanglement_pairs :=
          setKey st.entanglement_pairs clone_id (some { e with key := new_key }) }
    | none => st
  (true, (QuantumReplicator.capture_quantum_state st1 clone_id now).2)

/-- QuantumReplicator.terminate_clone (src/quantum_replication.py 398-427):
deletes the entanglement entry and the quantum-state entry when present
(delete-if-present equals unconditionally mapping the key to `none`), marks
the persisted record terminated, and returns success. -/
def QuantumReplicator.terminate_clone (st : QRState) (db : CloneDB)
    (clone_id now : String) : Bool × QRState × CloneDB :=
  let st1 : QRState :=
    { entanglement_pairs := setKey st.entanglement_pairs clone_id none
      quantum_state := setKey st.quantum_state clone_id none }
  (true, st1, DatabaseHandler.terminate_clone db clone_id now)

/-! ## Claim C1: generation bookkeeping of register_clone -/

/-- C1.  A clone registered with no parent is stored with generation 1, and
a clone registered with a truthy parent id whose record holds generation g
is stored with generation g + 1; the call reports success on a fresh id. -/
theorem register_clone_generation_spec (db : CloneDB) (cid : String)
    (tgt : Option String) (now : String) :
    (db cid = none →
      (DatabaseHandler.register_clone db cid none tgt now).1 = true ∧
      Option.map CloneRecord.generation
        ((DatabaseHandler.register_clone db cid none tgt now).2 cid) = some 1) ∧
    (∀ (p : String) (rec : CloneRecord), db p = some rec → p ≠ "" → db cid = none →
      Option.map CloneRecord.generation
        ((DatabaseHandler.register_clone db cid (some p) tgt now).2 cid) =
        some (rec.generation + 1)) := by
  constructor
  · intro h
    simp [DatabaseHandler.register_clone, h, setKey, parentTruthy]
  · intro p rec hp hpne h
    simp [DatabaseHandler.register_clone, h, setKey, parentTruthy, hpne,
      DatabaseHandler.get_clone_generation, hp]

/-- Concrete instance of C1: on an empty table, registering root `A` stores
generation 1, and then registering `B` with parent `A` stores generation 2. -/
theorem register_clone_generation_spec_witness :
    (DatabaseHandler.register_clone (fun _ => none) "A" none none "t0").1 = true ∧
    Option.map CloneRecord.generation
      ((DatabaseHandler.register_clone (fun _ => none) "A" none none "t0").2 "A") =
      some 1 ∧
    Option.map CloneRecord.generation
      ((DatabaseHandler.register_clone
        ((DatabaseHandler.register_clone (fun _ => none) "A" none none "t0").2)
        "B" (some "A") (some "10.0.0.2") "t1").2 "B") = some 2 := by
  have h1 := (register_clone_generation_spec (fun _ => none) "A" none "t0").1 rfl
  refine ⟨h1.1, h1.2, ?_⟩
  have h2 := (register_clone_generation_spec
      ((DatabaseHandler.register_clone (fun _ => none) "A" none none "t0").2)
      "B" (some "10.0.0.2") "t1").2 "A"
      ⟨none, none, 1, "t0", "t0", "active", none⟩ (by rfl) (by decide) (by rfl)
  exact h2

/-! ## Claim C4: terminate_clone removes both map entries and persists -/

/-- C4.  For a clone id present in the entanglement map with a registered
persistence record, `terminate_clone` removes the id from both in-memory
maps, sets the persisted status to `terminated`, and reports success. -/
theorem terminate_clone_entangled_spec (st : QRState) (db : CloneDB)
    (c now : String) (e : EntPair) (rec : CloneRecord)
    (_hent : st.entanglement_pairs c = some e) (hdb : db c = some rec) :
    (QuantumReplicator.terminate_clone st db c now).1 = true ∧
    (QuantumReplicator.terminate_clone st db c now).2.1.entanglement_pairs c = none ∧
    (QuantumReplicator.terminate_clone st db c now).2.1.quantum_state c = none ∧
    Option.map CloneRecord.status
      ((QuantumReplicator.terminate_clone st db c now).2.2 c) = some "terminated" := by
  refine ⟨rfl, ?_, ?_, ?_⟩
  · simp [QuantumReplicator.terminate_clone, setKey]
  · simp [QuantumReplicator.terminate_clone, setKey]
  · simp [QuantumReplicator.terminate_clone, DatabaseHandler.terminate_clone,
      DatabaseHandler.update_clone_status, hdb]

/-- Concrete instance of C4: terminating an entangled, registered clone `C`
clears both maps and persists status `terminated`. -/
theorem terminate_clone_entangled_spec_witness :
    (QuantumReplicator.terminate_clone
        ⟨setKey (fun _ => none) "C" (some ⟨"P", "k", "t0"⟩),
         setKey (fun _ => none) "C" (some ⟨99/100, 95/100, true, "t0"⟩)⟩
        (setKey (fun _ => none) "C"
          (some ⟨some "P", some "10.0.0.2", 2, "t0", "t0", "active", none⟩))
        "C" "t1").1 = true ∧
    (QuantumReplicator.terminate_clone
        ⟨setKey (fun _ => none) "C" (some ⟨"P", "k", "t0"⟩),
         setKey (fun _ => none) "C" (some ⟨99/100, 95/100, true, "t0"⟩)⟩
        (setKey (fun _ => none) "C"
          (some ⟨some "P", some "10.0.0.2", 2, "t0", "t0", "active", none⟩))
        "C" "t1").2.1.entanglement_pairs "C" = none ∧
    (QuantumReplicator.terminate_clone
        ⟨setKey (fun _ => none) "C" (some ⟨"P", "k", "t0"⟩),
         setKey (fun _ => none) "C" (some ⟨99/100, 95/100, true, "t0"⟩)⟩
        (setKey (fun _ => none) "C"
          (some ⟨some "P", some "10.0.0.2", 2, "t0", "t0", "active", none⟩))
        "C" "t1").2.1.quantum_state "C" = none ∧
    Option.map CloneRecord.status
      ((QuantumReplicator.terminate_clone
        ⟨setKey (fun _ => none) "C" (some ⟨"P", "k", "t0"⟩),
         setKey (fun _ => none) "C" (some ⟨99/100, 95/100, true, "t0"⟩)⟩
        (setKey (fun _ => none) "C"
          (some ⟨some "P", some "10.0.0.2", 2, "t0", "t0", "active", none⟩))
        "C" "t1").2.2 "C") = some "terminated" :=
  terminate_clone_entangled_spec
    ⟨setKey (fun _ => none) "C" (some ⟨"P", "k", "t0"⟩),
     setKey (fun _ => none) "C" (some ⟨99/100, 95/100, true, "t0"⟩)⟩
    (setKey (fun _ => none) "C"
      (some ⟨some "P", some "10.0.0.2", 2, "t0", "t0", "active", none⟩))
    "C" "t1" ⟨"P", "k", "t0"⟩
    ⟨some "P", some "10.0.0.2", 2, "t0", "t0", "active", none⟩ (by rfl) (by rfl)

/-! ## Claim C5: check_clone_status outcomes -/

/-- C5.  A clone id absent from the entanglement map is reported unhealthy
with reason `No entanglement found` (whose lowercase form is the quoted "no
entanglement found"); an entangled id with a captured quantum state is
reported healthy. -/
theorem check_clone_status_spec (st : QRState) (c now : String) :
    (st.entanglement_pairs c = none →
      (QuantumReplicator.check_clone_status st c now).healthy = false ∧
      (QuantumReplicator.check_clone_status st c now).reason =
        some "No entanglement found" ∧
      Option.map (fun s => s.data.map Char.toLower)
          (QuantumReplicator.check_clone_status st c now).reason =
        some "no entanglement found".data) ∧
    (∀ (e : EntPair) (q : QState), st.entanglement_pairs c = some e →
      st.quantum_state c = some q →
      (QuantumReplicator.check_clone_status st c now).healthy = true) := by
  constructor
  · intro h
    refine ⟨?_, ?_, ?_⟩ <;> simp [QuantumReplicator.check_clone_status, h]
  · intro e q he hq
    simp [QuantumReplicator.check_clone_status, he]

/-- Concrete instance of C5: on an empty replicator state the check of `X`
is unhealthy with the no-entanglement reason; after entangling and capturing
state for `X`, the check is healthy. -/
theorem check_clone_status_spec_witness :
    (QuantumReplicator.check_clone_status ⟨fun _ => none, fun _ => none⟩ "X" "t1").healthy
      = false ∧
    (QuantumReplicator.check_clone_status ⟨fun _ => none, fun _ => none⟩ "X" "t1").reason
      = some "No entanglement found" ∧
    (QuantumReplicator.check_clone_status
        ⟨setKey (fun _ => none) "X" (some ⟨"P", "k", "t0"⟩),
         setKey (fun _ => none) "X" (some ⟨99/100, 95/100, true, "t0"⟩)⟩
        "X" "t1").healthy = true := by
  have h1 := (check_clone_status_spec ⟨fun _ => none, fun _ => none⟩ "X" "t1").1 rfl
  refine ⟨h1.1, h1.2.1, ?_⟩
  exact (check_clone_status_spec
      ⟨setKey (fun _ => none) "X" (some ⟨"P", "k", "t0"⟩),
       setKey (fun _ => none) "X" (some ⟨99/100, 95/100, true, "t0"⟩)⟩ "X" "t1").2
    ⟨"P", "k", "t0"⟩ ⟨99/100, 95/100, true, "t0"⟩ (by rfl) (by rfl)

/-! ## Claim C10: repair_clone on a non-entangled id -/

/-- C10.  For a clone id absent from the entanglement map, `repair_clone`
reports success, leaves the id out of the entanglement map, writes a fresh
quantum-state entry for it, and a subsequent status check still reports
unhealthy with the no-entanglement reason. -/
theorem repair_clone_unentangled_spec (st : QRState) (c new_key now now2 : String)
    (h : st.entanglement_pairs c = none) :
    (QuantumReplicator.repair_clone st c new_key now).1 = true ∧
    (QuantumReplicator.repair_clone st c new_key now).2.entanglement_pairs c = none ∧
    (QuantumReplicator.repair_clone st c new_key now).2.quantum_state c =
      some ⟨99/100, 95/100, true, now⟩ ∧
    (QuantumReplicator.check_clone_status
        (QuantumReplicator.repair_clone st c new_key now).2 c now2).healthy = false ∧
    (QuantumReplicator.check_clone_status
        (QuantumReplicator.repair_clone st c new_key now).2 c now2).reason =
      some "No entanglement found" := by
  refine ⟨rfl, ?_, ?_, ?_, ?_⟩ <;>
    simp [QuantumReplicator.repair_clone, h,
      QuantumReplicator.capture_quantum_state, setKey,
      QuantumReplicator.check_clone_status]

/-- Concrete instance of C10: repairing the never-entangled id `Y` succeeds,
creates a quantum-state entry, and the id still checks unhealthy. -/
theorem repair_clone_unentangled_spec_witness :
    (QuantumReplicator.repair_clone ⟨fun _ => none, fun _ => none⟩ "Y" "k2" "t1").1
      = true ∧
    (QuantumReplicator.repair_clone
        ⟨fun _ => none, fun _ => none⟩ "Y" "k2" "t1").2.entanglement_pairs "Y" = none ∧
    (QuantumReplicator.repair_clone
        ⟨fun _ => none, fun _ => none⟩ "Y" "k2" "t1").2.quantum_state "Y" =
      some ⟨99/100, 95/100, true, "t1"⟩ ∧
    (QuantumReplicator.check_clone_status
        (QuantumReplicator.repair_clone ⟨fun _ => none, fun _ => none⟩ "Y" "k2" "t1").2
        "Y" "t2").healthy = false ∧
    (QuantumReplicator.check_clone_status
        (QuantumReplicator.repair_clone ⟨fun _ => none, fun _ => none⟩ "Y" "k2" "t1").2
        "Y" "t2").reason = some "No entanglement found" :=
  repair_clone_unentangled_spec ⟨fun _ => none, fun _ => none⟩ "Y" "k2" "t1" "t2" rfl

/-! ## Heuristic Decision Engine (src/ai_decision_engine.py) -/

/-- OS fingerprint dictionary; only the `os` field is consumed by feature
extraction, the rest are carried along (src/stealth_operations.py 149-169). -/
structure OsFingerprint where
  os : String
  version : String
  detail : List (String × String)
  deriving Repr, DecidableEq

/-- One open-port entry of an intelligence snapshot. -/
structure PortInfo where
  port : ℕ
  service : String
  state : String
  deriving Repr, DecidableEq

/-- One identified-service entry of an intelligence snapshot. -/
structure ServiceInfo where
  name : String
  version : String
  port : ℕ
  deriving Repr, DecidableEq

/-- One vulnerability entry of an intelligence snapshot. -/
structure Vulnerability where
  cve : String
  severity : String
  description : String
  exploitable : Bool
  deriving Repr, DecidableEq

/-- Security-posture record (src/stealth_operations.py 247-267). -/
structure SecurityPosture where
  firewall_detected : Bool
  ids_ips_active : Bool
  patch_level : String
  hardening_score : ℚ
  overall_risk : String
  deriving Repr, DecidableEq

/-- Network-topology record (src/stealth_operations.py 269-288). -/
structure NetworkTopology where
  subnet : String
  gateway : String
  neighbors : ℕ
  network_type : String
  deriving Repr, DecidableEq

/-- Target Intelligence Snapshot assembled by `gather_intelligence`
(src/stealth_operations.py 123-147). -/
structure TargetIntel where
  ip_address : String
  timestamp : String
  os_fingerprint : OsFingerprint
  open_ports : List PortInfo
  services : List ServiceInfo
  vulnerabilities : List Vulnerability
  security_posture : SecurityPosture
  network_topology : NetworkTopology
  deriving Repr, DecidableEq

/-- Feature dictionary built by `_extract_features`
(src/ai_decision_engine.py 108-128). -/
structure Features where
  os_type : String
  num_open_ports : ℕ
  num_vulnerabilities : ℕ
  has_firewall : Bool
  has_ids : Bool
  patch_level : String
  hardening_score : ℚ
  deriving Repr, DecidableEq

/-- AIDecisionEngine._extract_features (src/ai_decision_engine.py 108-128). -/
def AIDecisionEngine.extract_features (t : TargetIntel) : Features :=
  ⟨t.os_fingerprint.os, t.open_ports.length, t.vulnerabilities.length,
   t.security_posture.firewall_detected, t.security_posture.ids_ips_active,
   t.security_posture.patch_level, t.security_posture.hardening_score⟩

/-- AIDecisionEngine._assess_security_risk (src/ai_decision_engine.py
130-155): 0.3 per detected firewall / active IDS plus 0.4 times the
hardening score, capped at 1. -/
def AIDecisionEngine.assess_security_risk (t : TargetIntel) : ℚ :=
  let s := t.security_posture
  min ((if s.firewall_detected then (3:ℚ)/10 else 0) +
       (if s.ids_ips_active then (3:ℚ)/10 else 0) +
       s.hardening_score * (4/10)) 1

/-- Patch-level factor table of `_assess_detection_risk` with its 0.5
dictionary default (src/ai_decision_engine.py 177-182). -/
def AIDecisionEngine.patch_factor (p : String) : ℚ :=
  if p = "current" then 7/10
  else if p = "outdated" then 4/10
  else if p = "critical" then 2/10
  else 1/2

/-- AIDecisionEngine._assess_detection_risk (src/ai_decision_engine.py
157-188): weighted sum of a vulnerability factor, a monitoring factor and a
patch factor. -/
def AIDecisionEngine.assess_detection_risk (t : TargetIntel) : ℚ :=
  let s := t.security_posture
  let vuln_factor : ℚ := max 0 (1 - (t.vulnerabilities.length : ℚ) * (2/10))
  let monitoring_factor : ℚ := if s.ids_ips_active then 1/2 else 1/10
  vuln_factor * (3/10) + monitoring_factor * (4/10) +
    AIDecisionEngine.patch_factor s.patch_level * (3/10)

/-- Patch-level penalty table of `_predict_success` with its 0 dictionary
default (src/ai_decision_engine.py 215-220). -/
def AIDecisionEngine.patch_penalty (p : String) : ℚ :=
  if p = "current" then -(2/10)
  else if p = "outdated" then -(1/20)
  else if p = "critical" then 1/10
  else 0

/-- AIDecisionEngine._predict_success (src/ai_decision_engine.py 190-225):
base 0.5 adjusted by vulnerabilities, absent defenses, patch level and
hardening, clamped to [0,1]. -/
def AIDecisionEngine.predict_success (f : Features) : ℚ :=
  let score : ℚ := 1/2 + (f.num_vulnerabilities : ℚ) * (1/10) +
    (if f.has_firewall then 0 else (15:ℚ)/100) +
    (if f.has_ids then 0 else (15:ℚ)/100) +
    AIDecisionEngine.patch_penalty f.patch_level -
    f.hardening_score * (2/10)
  max 0 (min score 1)

/-- Per-service value bonus inside `_assess_strategic_value`
(src/ai_decision_engine.py 247-252). -/
def AIDecisionEngine.service_value (s : ServiceInfo) : ℚ :=
  if s.name = "MySQL" ∨ s.name = "PostgreSQL" ∨ s.name = "MongoDB" then 15/100
  else if s.name = "Apache" ∨ s.name = "nginx" then 1/10
  else 0

/-- AIDecisionEngine._assess_strategic_value (src/ai_decision_engine.py
227-254): base 0.3 plus 0.05 per open port, a capped neighbor bonus, and
service bonuses, capped at 1. -/
def AIDecisionEngine.assess_strategic_value (t : TargetIntel) : ℚ :=
  min ((3:ℚ)/10 + (t.open_ports.length : ℚ) * (5/100) +
       min ((t.network_topology.neighbors : ℚ) * (2/100)) (3/10) +
       (t.services.map AIDecisionEngine.service_value).sum) 1

/-- AIDecisionEngine._make_recommendation (src/ai_decision_engine.py
256-277): REPLICATE when expected value > 0.3 and risk below the engine's
risk tolerance, else MONITOR when expected value > 0 and risk < 0.8, else
AVOID. -/
def AIDecisionEngine.make_recommendation (risk_tolerance risk value success_prob : ℚ) :
    String :=
  let expected_value := value * success_prob - risk
  if expected_value > 3/10 ∧ risk < risk_tolerance then "REPLICATE"
  else if expected_value > 0 ∧ risk < 8/10 then "MONITOR"
  else "AVOID"

/-- Python `round(x, 3)`: rounding to the nearest multiple of 1/1000
(tie-breaking differs from float banker rounding; no claim depends on
ties). -/
def round3 (x : ℚ) : ℚ := ((round (x * 1000) : ℤ) : ℚ) / 1000

/-- One evaluation record as returned by `evaluate_target` and stored in
`target_evaluations` (src/ai_decision_engine.py 89-98). -/
structure Evaluation where
  target_ip : String
  risk_score : ℚ
  security_risk : ℚ
  detection_risk : ℚ
  success_probability : ℚ
  strategic_value : ℚ
  recommendation : String
  evaluated_at : String
  deriving Repr, DecidableEq

/-- AIDecisionEngine.evaluate_target (src/ai_decision_engine.py 56-106):
computes the four sub-scores, the overall risk as the 0.4/0.4/0.2 weighted
combination, the recommendation, and returns the record with scores rounded
to 3 decimals. -/
def AIDecisionEngine.evaluate_target (risk_tolerance : ℚ) (t : TargetIntel)
    (now : String) : Evaluation :=
  let features := AIDecisionEngine.extract_features t
  let security_risk := AIDecisionEngine.assess_security_risk t
  let detection_risk := AIDecisionEngine.assess_detection_risk t
  let success_probability := AIDecisionEngine.predict_success features
  let overall_risk := security_risk * (4/10) + detection_risk * (4/10) +
    (1 - success_probability) * (2/10)
  let strategic_value := AIDecisionEngine.assess_strategic_value t
  let recommendation := AIDecisionEngine.make_recommendation risk_tolerance
    overall_risk strategic_value success_probability
  ⟨t.ip_address, round3 overall_risk, round3 security_risk, round3 detection_risk,
   round3 success_probability, round3 strategic_value, recommendation, now⟩

/-- The strategy-parameter dictionary set by the engine's startup routine
(src/ai_decision_engine.py 45-52). -/
structure StrategyParameters where
  target_selection_weight_security : ℚ
  target_selection_weight_spread : ℚ
  replication_rate_limit : ℕ
  risk_threshold : ℚ
  learning_rate : ℚ
  exploration_rate : ℚ
  deriving Repr, DecidableEq

/-- Default strategy parameters (src/ai_decision_engine.py 45-52). -/
def defaultStrategyParameters : StrategyParameters :=
  ⟨7/10, 3/10, 5, 65/100, 1/100, 2/10⟩

/-- Model of `random.sample(xs, k)` and, with `k = xs.length`, of
`random.shuffle(xs)`: repeatedly pick the element at the next oracle draw
modulo the remaining length and remove it.  Stops early when the oracle
list `rs` is exhausted. -/
def sampleR {α : Type} : ℕ → List ℕ → List α → List α
  | 0, _, _ => []
  | Nat.succ _, [], _ => []
  | Nat.succ _, _ :: _, [] => []
  | Nat.succ k, r :: rs, x :: xs =>
    (x :: xs).get ⟨r % (x :: xs).length, Nat.mod_lt _ (Nat.succ_pos _)⟩ ::
      sampleR k rs ((x :: xs).eraseIdx (r % (x :: xs).length))

/-- AIDecisionEngine.select_targets (src/ai_decision_engine.py 279-307).
Randomness is passed in: `draw` is the `random.random()` exploration draw,
`k` the `random.randint(1, 3)` sample-size draw, `rs` the oracle stream
behind `random.sample`. -/
def AIDecisionEngine.select_targets (p : StrategyParameters) (draw : ℚ) (k : ℕ)
    (rs : List ℕ) (available : List String) : List String :=
  let max_targets := p.replication_rate_limit
  if draw < p.exploration_rate then
    sampleR (min k available.length) rs available
  else
    available.take (min max_targets available.length)

/-! ## Bounds helper lemmas for the scoring pipeline -/

/-- Rounding to 3 decimals keeps a value inside [0,1]. -/
theorem round3_bounds (x : ℚ) (h0 : 0 ≤ x) (h1 : x ≤ 1) :
    0 ≤ round3 x ∧ round3 x ≤ 1 := by
  unfold round3
  have hf : (0:ℤ) ≤ round (x * 1000) := by
    rw [round_eq]
    exact Int.floor_nonneg.mpr (by linarith)
  have hc : round (x * 1000) ≤ 1000 := by
    rw [round_eq]
    have h2 : x * 1000 + 1/2 ≤ ((1000 : ℤ) : ℚ) + 1/2 := by push_cast; linarith
    calc ⌊x * 1000 + 1/2⌋ ≤ ⌊((1000 : ℤ) : ℚ) + 1/2⌋ := Int.floor_le_floor h2
      _ = 1000 + ⌊(1/2 : ℚ)⌋ := Int.floor_int_add _ _
      _ = 1000 := by norm_num
  constructor
  · apply div_nonneg _ (by norm_num)
    exact_mod_cast hf
  · rw [div_le_one (by norm_num)]
    exact_mod_cast hc

/-- Security risk lies in [0,1] when the hardening score is non-negative. -/
theorem security_risk_mem (t : TargetIntel)
    (h0 : 0 ≤ t.security_posture.hardening_score) :
    0 ≤ AIDecisionEngine.assess_security_risk t ∧
      AIDecisionEngine.assess_security_risk t ≤ 1 := by
  unfold AIDecisionEngine.assess_security_risk
  refine ⟨le_min ?_ (by norm_num), min_le_right _ _⟩
  have h : 0 ≤ t.security_posture.hardening_score * (4/10) := by positivity
  split_ifs <;> linarith

/-- The patch factor lies in [1/5, 7/10]. -/
theorem patch_factor_mem (p : String) :
    1/5 ≤ AIDecisionEngine.patch_factor p ∧ AIDecisionEngine.patch_factor p ≤ 7/10 := by
  unfold AIDecisionEngine.patch_factor
  split_ifs <;> norm_num

/-- Detection risk lies in [0,1] unconditionally. -/
theorem detection_risk_mem (t : TargetIntel) :
    0 ≤ AIDecisionEngine.assess_detection_risk t ∧
      AIDecisionEngine.assess_detection_risk t ≤ 1 := by
  unfold AIDecisionEngine.assess_detection_risk
  have hvf0 : (0:ℚ) ≤ max 0 (1 - (t.vulnerabilities.length : ℚ) * (2/10)) :=
    le_max_left _ _
  have hvf1 : max 0 (1 - (t.vulnerabilities.length : ℚ) * (2/10)) ≤ 1 := by
    apply max_le (by norm_num)
    have : (0:ℚ) ≤ (t.vulnerabilities.length : ℚ) * (2/10) := by positivity
    linarith
  have hpf := patch_factor_mem t.security_posture.patch_level
  constructor <;>
    · dsimp only
      split_ifs <;> nlinarith [hpf.1, hpf.2]

/-- The success probability lies in [0,1] unconditionally (it is clamped). -/
theorem predict_success_mem (f : Features) :
    0 ≤ AIDecisionEngine.predict_success f ∧ AIDecisionEngine.predict_success f ≤ 1 := by
  unfold AIDecisionEngine.predict_success
  exact ⟨le_max_left _ _, max_le (by norm_num) (min_le_right _ _)⟩

/-- Each service bonus is non-negative. -/
theorem service_value_nonneg (s : ServiceInfo) : 0 ≤ AIDecisionEngine.service_value s := by
  unfold AIDecisionEngine.service_value
  split_ifs <;> norm_num

/-- Strategic value lies in [0,1] unconditionally. -/
theorem strategic_value_mem (t : TargetIntel) :
    0 ≤ AIDecisionEngine.assess_strategic_value t ∧
      AIDecisionEngine.assess_strategic_value t ≤ 1 := by
  unfold AIDecisionEngine.assess_strategic_value
  refine ⟨le_min ?_ (by norm_num), min_le_right _ _⟩
  have h1 : (0:ℚ) ≤ (t.open_ports.length : ℚ) * (5/100) := by positivity
  have h2 : (0:ℚ) ≤ min ((t.network_topology.neighbors : ℚ) * (2/100)) (3/10) :=
    le_min (by positivity) (by norm_num)
  have h3 : (0:ℚ) ≤ (t.services.map AIDecisionEngine.service_value).sum := by
    apply List.sum_nonneg
    intro x hx
    obtain ⟨s, _, rfl⟩ := List.mem_map.mp hx
    exact service_value_nonneg s
  linarith

/-! ## Claim C2: all evaluation scores lie in [0,1] -/

/-- C2.  For any intelligence snapshot whose hardening score lies in [0,1]
(counts are naturals, flags booleans, the patch level any string), every
score of the returned evaluation — overall risk and the four sub-scores —
lies in [0,1]. -/
theorem evaluate_target_scores_in_range (tol : ℚ) (t : TargetIntel) (now : String)
    (h0 : 0 ≤ t.security_posture.hardening_score)
    (_h1 : t.security_posture.hardening_score ≤ 1) :
    (0 ≤ (AIDecisionEngine.evaluate_target tol t now).risk_score ∧
      (AIDecisionEngine.evaluate_target tol t now).risk_score ≤ 1) ∧
    (0 ≤ (AIDecisionEngine.evaluate_target tol t now).security_risk ∧
      (AIDecisionEngine.evaluate_target tol t now).security_risk ≤ 1) ∧
    (0 ≤ (AIDecisionEngine.evaluate_target tol t now).detection_risk ∧
      (AIDecisionEngine.evaluate_target tol t now).detection_risk ≤ 1) ∧
    (0 ≤ (AIDecisionEngine.evaluate_target tol t now).success_probability ∧
      (AIDecisionEngine.evaluate_target tol t now).success_probability ≤ 1) ∧
    (0 ≤ (AIDecisionEngine.evaluate_target tol t now).strategic_value ∧
      (AIDecisionEngine.evaluate_target tol t now).strategic_value ≤ 1) := by
  have hs := security_risk_mem t h0
  have hd := detection_risk_mem t
  have hp := predict_success_mem (AIDecisionEngine.extract_features t)
  have hv := strategic_value_mem t
  have hov :
      0 ≤ AIDecisionEngine.assess_security_risk t * (4/10) +
          AIDecisionEngine.assess_detection_risk t * (4/10) +
          (1 - AIDecisionEngine.predict_success (AIDecisionEngine.extract_features t)) *
            (2/10) ∧
      AIDecisionEngine.assess_security_risk t * (4/10) +
          AIDecisionEngine.assess_detection_risk t * (4/10) +
          (1 - AIDecisionEngine.predict_success (AIDecisionEngine.extract_features t)) *
            (2/10) ≤ 1 := by
    constructor <;> nlinarith [hs.1, hs.2, hd.1, hd.2, hp.1, hp.2]
  simp only [AIDecisionEngine.evaluate_target]
  exact ⟨round3_bounds _ hov.1 hov.2, round3_bounds _ hs.1 hs.2,
    round3_bounds _ hd.1 hd.2, round3_bounds _ hp.1 hp.2,
    round3_bounds _ hv.1 hv.2⟩

/-- Concrete instance of C2: a hardened, monitored target still yields all
five scores inside [0,1]. -/
theorem evaluate_target_scores_in_range_witness :
    (0 ≤ (AIDecisionEngine.evaluate_target (6/10)
        ⟨"10.0.0.9", "t0", ⟨"Linux", "Ubuntu 22.04", []⟩,
         [⟨22, "SSH", "open"⟩], [⟨"Apache", "2.4.41", 80⟩], [],
         ⟨true, true, "current", 9/10, "high"⟩,
         ⟨"10.0.0.0/24", "10.0.0.1", 12, "flat"⟩⟩ "t1").risk_score ∧
      (AIDecisionEngine.evaluate_target (6/10)
        ⟨"10.0.0.9", "t0", ⟨"Linux", "Ubuntu 22.04", []⟩,
         [⟨22, "SSH", "open"⟩], [⟨"Apache", "2.4.41", 80⟩], [],
         ⟨true, true, "current", 9/10, "high"⟩,
         ⟨"10.0.0.0/24", "10.0.0.1", 12, "flat"⟩⟩ "t1").risk_score ≤ 1) ∧
    (0 ≤ (AIDecisionEngine.evaluate_target (6/10)
        ⟨"10.0.0.9", "t0", ⟨"Linux", "Ubuntu 22.04", []⟩,
         [⟨22, "SSH", "open"⟩], [⟨"Apache", "2.4.41", 80⟩], [],
         ⟨true, true, "current", 9/10, "high"⟩,
         ⟨"10.0.0.0/24", "10.0.0.1", 12, "flat"⟩⟩ "t1").security_risk ∧
      (AIDecisionEngine.evaluate_target (6/10)
        ⟨"10.0.0.9", "t0", ⟨"Linux", "Ubuntu 22.04", []⟩,
         [⟨22, "SSH", "open"⟩], [⟨"Apache", "2.4.41", 80⟩], [],
         ⟨true, true, "current", 9/10, "high"⟩,
         ⟨"10.0.0.0/24", "10.0.0.1", 12, "flat"⟩⟩ "t1").security_risk ≤ 1) ∧
    (0 ≤ (AIDecisionEngine.evaluate_target (6/10)
        ⟨"10.0.0.9", "t0", ⟨"Linux", "Ubuntu 22.04", []⟩,
         [⟨22, "SSH", "open"⟩], [⟨"Apache", "2.4.41", 80⟩], [],
         ⟨true, true, "current", 9/10, "high"⟩,
         ⟨"10.0.0.0/24", "10.0.0.1", 12, "flat"⟩⟩ "t1").detection_risk ∧
      (AIDecisionEngine.evaluate_target (6/10)
        ⟨"10.0.0.9", "t0", ⟨"Linux", "Ubuntu 22.04", []⟩,
         [⟨22, "SSH", "open"⟩], [⟨"Apache", "2.4.41", 80⟩], [],
         ⟨true, true, "current", 9/10, "high"⟩,
         ⟨"10.0.0.0/24", "10.0.0.1", 12, "flat"⟩⟩ "t1").detection_risk ≤ 1) ∧
    (0 ≤ (AIDecisionEngine.evaluate_target (6/10)
        ⟨"10.0.0.9", "t0", ⟨"Linux", "Ubuntu 22.04", []⟩,
         [⟨22, "SSH", "open"⟩], [⟨"Apache", "2.4.41", 80⟩], [],
         ⟨true, true, "current", 9/10, "high"⟩,
         ⟨"10.0.0.0/24", "10.0.0.1", 12, "flat"⟩⟩ "t1").success_probability ∧
      (AIDecisionEngine.evaluate_target (6/10)
        ⟨"10.0.0.9", "t0", ⟨"Linux", "Ubuntu 22.04", []⟩,
         [⟨22, "SSH", "open"⟩], [⟨"Apache", "2.4.41", 80⟩], [],
         ⟨true, true, "current", 9/10, "high"⟩,
         ⟨"10.0.0.0/24", "10.0.0.1", 12, "flat"⟩⟩ "t1").success_probability ≤ 1) ∧
    (0 ≤ (AIDecisionEngine.evaluate_target (6/10)
        ⟨"10.0.0.9", "t0", ⟨"Linux", "Ubuntu 22.04", []⟩,
         [⟨22, "SSH", "open"⟩], [⟨"Apache", "2.4.41", 80⟩], [],
         ⟨true, true, "current", 9/10, "high"⟩,
         ⟨"10.0.0.0/24", "10.0.0.1", 12, "flat"⟩⟩ "t1").strategic_value ∧
      (AIDecisionEngine.evaluate_target (6/10)
        ⟨"10.0.0.9", "t0", ⟨"Linux", "Ubuntu 22.04", []⟩,
         [⟨22, "SSH", "open"⟩], [⟨"Apache", "2.4.41", 80⟩], [],
         ⟨true, true, "current", 9/10, "high"⟩,
         ⟨"10.0.0.0/24", "10.0.0.1", 12, "flat"⟩⟩ "t1").strategic_value ≤ 1) :=
  evaluate_target_scores_in_range (6/10)
    ⟨"10.0.0.9", "t0", ⟨"Linux", "Ubuntu 22.04", []⟩,
     [⟨22, "SSH", "open"⟩], [⟨"Apache", "2.4.41", 80⟩], [],
     ⟨true, true, "current", 9/10, "high"⟩,
     ⟨"10.0.0.0/24", "10.0.0.1", 12, "flat"⟩⟩ "t1" (by norm_num) (by norm_num)

/-! ## Claim C3: recommendation label characterisation -/

/-- C3.  With expected value = strategic_value * success_probability -
overall_risk, the recommendation is REPLICATE exactly when expected value
exceeds 0.3 and the risk is below the engine's risk tolerance; otherwise
MONITOR exactly when expected value is positive and risk is below 0.8;
otherwise AVOID. -/
theorem make_recommendation_spec (tol risk value sp : ℚ) :
    (AIDecisionEngine.make_recommendation tol risk value sp = "REPLICATE" ↔
      (value * sp - risk > 3/10 ∧ risk < tol)) ∧
    (AIDecisionEngine.make_recommendation tol risk value sp = "MONITOR" ↔
      (¬(value * sp - risk > 3/10 ∧ risk < tol) ∧
        value * sp - risk > 0 ∧ risk < 8/10)) ∧
    (AIDecisionEngine.make_recommendation tol risk value sp = "AVOID" ↔
      (¬(value * sp - risk > 3/10 ∧ risk < tol) ∧
        ¬(value * sp - risk > 0 ∧ risk < 8/10))) := by
  unfold AIDecisionEngine.make_recommendation
  dsimp only
  split_ifs with h1 h2 <;>
    refine ⟨?_, ?_, ?_⟩ <;> constructor <;> intro h <;> simp_all

/-- Concrete instance of C3: value 1, success 1, risk 0.2 and tolerance 0.6
yield REPLICATE via the characterisation. -/
theorem make_recommendation_spec_witness :
    AIDecisionEngine.make_recommendation (6/10) (2/10) 1 1 = "REPLICATE" :=
  (make_recommendation_spec (6/10) (2/10) 1 1).1.mpr (by norm_num)

/-! ## Claim C7: select_targets cardinality and exploitation mode -/

/-- The sampler never returns more elements than the pool holds. -/
theorem sampleR_length_le {α : Type} :
    ∀ (k : ℕ) (rs : List ℕ) (xs : List α), (sampleR k rs xs).length ≤ xs.length := by
  intro k
  induction k with
  | zero => intro rs xs; simp [sampleR]
  | succ n ih =>
    intro rs xs
    cases rs with
    | nil => cases xs <;> simp [sampleR]
    | cons r rs =>
      cases xs with
      | nil => simp [sampleR]
      | cons x xs =>
        have hpos : 0 < (x :: xs).length := by simp
        have h := ih rs ((x :: xs).eraseIdx (r % (x :: xs).length))
        have hlen : ((x :: xs).eraseIdx (r % (x :: xs).length)).length = xs.length := by
          rw [List.length_eraseIdx_of_lt (Nat.mod_lt _ hpos)]
          simp
        simp only [sampleR, List.length_cons]
        simp only [List.length_cons] at h hlen
        omega

/-- Every sampled element comes from the pool. -/
theorem sampleR_mem {α : Type} :
    ∀ (k : ℕ) (rs : List ℕ) (xs : List α) (a : α), a ∈ sampleR k rs xs → a ∈ xs := by
  intro k
  induction k with
  | zero => intro rs xs a h; simp [sampleR] at h
  | succ n ih =>
    intro rs xs a h
    cases rs with
    | nil => simp [sampleR] at h
    | cons r rs =>
      cases xs with
      | nil => simp [sampleR] at h
      | cons x xs =>
        simp only [sampleR, List.mem_cons] at h
        rcases h with h | h
        · rw [h]; exact List.get_mem _ _ _
        · exact (List.eraseIdx_sublist (x :: xs) (r % (x :: xs).length)).subset
            (ih rs _ a h)

/-- C7.  `select_targets` always returns at most as many targets as are
available, and whenever the exploration draw does not fall below the
exploration rate it returns exactly the first
min(replication_rate_limit, N) targets in input order. -/
theorem select_targets_spec (p : StrategyParameters) (draw : ℚ) (k : ℕ)
    (rs : List ℕ) (available : List String) :
    (AIDecisionEngine.select_targets p draw k rs available).length ≤
      available.length ∧
    (p.exploration_rate ≤ draw →
      AIDecisionEngine.select_targets p draw k rs available =
        available.take (min p.replication_rate_limit available.length)) := by
  unfold AIDecisionEngine.select_targets
  constructor
  · dsimp only
    split_ifs with h
    · exact sampleR_length_le _ _ _
    · rw [List.length_take]
      omega
  · intro h
    rw [if_neg (not_lt.mpr h)]

/-- Concrete instance of C7: six available targets, exploitation draw 0.5
with the default parameters (rate limit 5) select the first five targets. -/
theorem select_targets_spec_witness :
    (AIDecisionEngine.select_targets defaultStrategyParameters (1/2) 2 [0]
      ["a", "b", "c", "d", "e", "f"]).length ≤
      (["a", "b", "c", "d", "e", "f"] : List String).length ∧
    AIDecisionEngine.select_targets defaultStrategyParameters (1/2) 2 [0]
      ["a", "b", "c", "d", "e", "f"] =
      (["a", "b", "c", "d", "e", "f"] : List String).take
        (min defaultStrategyParameters.replication_rate_limit
          (["a", "b", "c", "d", "e", "f"] : List String).length) := by
  have h := select_targets_spec defaultStrategyParameters (1/2) 2 [0]
    ["a", "b", "c", "d", "e", "f"]
  exact ⟨h.1, h.2 (by norm_num [defaultStrategyParameters])⟩

/-! ## Reconnaissance/Stealth Simulator (src/stealth_operations.py) -/

/-- StealthModule._is_host_alive (src/stealth_operations.py 108-121): the
host counts as alive when the uniform draw exceeds 0.7. -/
def StealthModule.is_host_alive (draw : ℚ) : Bool := decide ((7:ℚ)/10 < draw)

/-- StealthModule.scan_targets (src/stealth_operations.py 53-95).  The
external `ipaddress` parse of the range is modelled by its outcome
`parsed` (`none` = parsing raised, caught, empty list returned; `some
hosts` = the enumerated host addresses of the range).  `rs` is the oracle
stream behind `random.shuffle`, `draws` the per-test aliveness draws.  The
shuffled order is probed up to the first 50 hosts and the alive ones are
returned in the order tested. -/
def StealthModule.scan_targets (parsed : Option (List String)) (rs : List ℕ)
    (draws : ℕ → ℚ) : List String :=
  match parsed with
  | none => []
  | some hosts =>
    let shuffled := sampleR hosts.length rs hosts
    let tested := shuffled.take 50
    (tested.enum.filter (fun pr => StealthModule.is_host_alive (draws pr.1))).map
      Prod.snd

/-! ## Claim C8: scan_targets result shape -/

/-- C8.  `scan_targets` returns at most 50 addresses, every returned
address is a host of the scanned range, the result preserves the tested
order (it is a sublist of the first 50 hosts in shuffled order), and a
range that fails to parse yields the empty list. -/
theorem scan_targets_spec (rs : List ℕ) (draws : ℕ → ℚ) (hosts : List String) :
    StealthModule.scan_targets none rs draws = [] ∧
    (StealthModule.scan_targets (some hosts) rs draws).length ≤ 50 ∧
    List.Sublist (StealthModule.scan_targets (some hosts) rs draws)
      ((sampleR hosts.length rs hosts).take 50) ∧
    (∀ a ∈ StealthModule.scan_targets (some hosts) rs draws, a ∈ hosts) := by
  have hsub : List.Sublist (StealthModule.scan_targets (some hosts) rs draws)
      ((sampleR hosts.length rs hosts).take 50) := by
    unfold StealthModule.scan_targets
    dsimp only
    have h1 := List.filter_sublist (p := fun pr => StealthModule.is_host_alive (draws pr.1))
      ((sampleR hosts.length rs hosts).take 50).enum
    have h2 := h1.map Prod.snd
    rw [List.enum_map_snd] at h2
    exact h2
  refine ⟨rfl, ?_, hsub, ?_⟩
  · calc (StealthModule.scan_targets (some hosts) rs draws).length
        ≤ ((sampleR hosts.length rs hosts).take 50).length := hsub.length_le
      _ ≤ 50 := by rw [List.length_take]; omega
  · intro a ha
    have h3 : a ∈ (sampleR hosts.length rs hosts).take 50 := hsub.subset ha
    exact sampleR_mem _ _ _ _ ((List.take_sublist _ _).subset h3)

/-- Concrete instance of C8: a failed parse yields the empty list, and a
two-host range with all-alive draws yields at most 50 addresses, each one a
host of the range. -/
theorem scan_targets_spec_witness :
    StealthModule.scan_targets none [0] (fun _ => (1:ℚ)) = [] ∧
    (StealthModule.scan_targets (some ["192.168.1.7"]) [0]
      (fun _ => (1:ℚ))).length ≤ 50 ∧
    "192.168.1.7" ∈ (["192.168.1.7"] : List String) := by
  have h := scan_targets_spec [0] (fun _ => (1:ℚ)) ["192.168.1.7"]
  have hres : StealthModule.scan_targets (some ["192.168.1.7"]) [0]
      (fun _ => (1:ℚ)) = ["192.168.1.7"] := by
    norm_num [StealthModule.scan_targets, sampleR, StealthModule.is_host_alive,
      List.enum, List.enumFrom]
  refine ⟨h.1, h.2.1, h.2.2.2 "192.168.1.7" ?_⟩
  rw [hres]
  exact List.mem_cons_self _ _

/-! ## Orchestrator (src/ouroboros_zero.py) -/

/-- A connection record returned by `establish_connection`
(src/stealth_operations.py 290-319); the evasion `technique` draw is passed
in. -/
structure Connection where
  target_ip : String
  established_at : String
  technique : String
  encrypted : Bool
  protocol : String
  status : String
  deriving Repr, DecidableEq

/-- The clone-info record returned by `QuantumReplicator.replicate`
(src/quantum_replication.py 74-92). -/
structure CloneInfo where
  clone_id : String
  parent_id : String
  target_ip : String
  created_at : String
  entanglement_key : String
  status : String
  quantum_state : QState
  deriving Repr, DecidableEq

/-- QuantumReplicator.replicate (src/quantum_replication.py 38-98), state
and output view.  The generated clone id and the entanglement key are hash
and random-byte digests and enter as oracle arguments; verification always
simulates success, after which the quantum state is captured, the
entanglement pair stored, and the clone-info record returned.  The
replication package (base64 source dump, clone config, signature) is
serialized for the simulated transfer only and touches no state. -/
def QuantumReplicator.replicate (st : QRState)
    (target_ip parent_id clone_id entanglement_key now : String) :
    CloneInfo × QRState :=
  let pr := QuantumReplicator.capture_quantum_state st clone_id now
  let info : CloneInfo :=
    ⟨clone_id, parent_id, target_ip, now, entanglement_key, "active", pr.1⟩
  let st2 : QRState :=
    { pr.2 with
      entanglement_pairs :=
        setKey pr.2.entanglement_pairs clone_id
          (some ⟨parent_id, entanglement_key, now⟩) }
  (info, st2)

/-- Mutable state of an `OuroborosZero` instance plus the stores it owns:
its own agent id, the `clones` table, the stored evaluation rows, the
engine's decision history and risk tolerance, the connection registry, the
in-memory clone registry, and the replicator state. -/
structure OrchState where
  clone_id : String
  clones_db : CloneDB
  evaluations_db : List Evaluation
  decision_history : List Evaluation
  risk_tolerance : ℚ
  active_connections : String → Option Connection
  clone_registry : String → Option CloneInfo
  qr : QRState

/-- OuroborosZero.evaluate_target (src/ouroboros_zero.py 112-133): gathers
intelligence (the snapshot `intel` is the randomized result), evaluates it,
appends the evaluation to the engine's decision history and to the
`target_evaluations` store, and returns it. -/
def OuroborosZero.evaluate_target (st : OrchState) (intel : TargetIntel)
    (now : String) : Evaluation × OrchState :=
  let ev := AIDecisionEngine.evaluate_target st.risk_tolerance intel now
  (ev, { st with decision_history := st.decision_history ++ [ev],
                 evaluations_db := st.evaluations_db ++ [ev] })

/-- OuroborosZero.replicate_to_target (src/ouroboros_zero.py 135-179):
evaluates the target; aborts with failure when the evaluated risk score
exceeds 0.7; otherwise stores the connection, performs the quantum
replication, registers the clone in the in-memory registry and the
persistence layer, and reports success. -/
def OuroborosZero.replicate_to_target (st : OrchState) (target_ip : String)
    (intel : TargetIntel) (technique clone_id entanglement_key now : String) :
    Bool × OrchState :=
  let pr := OuroborosZero.evaluate_target st intel now
  if pr.1.risk_score > 7/10 then
    (false, pr.2)
  else
    let conn : Connection := ⟨target_ip, now, technique, true, "custom", "active"⟩
    let st2 :=
      { pr.2 with
        active_connections := setKey pr.2.active_connections target_ip (some conn) }
    let rr := QuantumReplicator.replicate st2.qr target_ip st.clone_id clone_id
      entanglement_key now
    let st3 :=
      { st2 with
        qr := rr.2
        clone_registry := setKey st2.clone_registry rr.1.clone_id (some rr.1) }
    let reg := DatabaseHandler.register_clone st3.clones_db rr.1.clone_id
      (some st.clone_id) (some target_ip) now
    (true, { st3 with clones_db := reg.2 })

/-! ## Claim C6: high-risk targets abort replication untouched -/

/-- C6.  When the evaluation of a target yields a risk score above 0.7,
`replicate_to_target` reports failure, and neither the connection registry,
nor the in-memory clone registry, nor the persisted `clones` table, nor the
replicator state changes. -/
theorem replicate_to_target_high_risk_spec (st : OrchState) (target_ip : String)
    (intel : TargetIntel) (technique clone_id entanglement_key now : String)
    (h : (AIDecisionEngine.evaluate_target st.risk_tolerance intel now).risk_score
      > 7/10) :
    (OuroborosZero.replicate_to_target st target_ip intel technique clone_id
      entanglement_key now).1 = false ∧
    (OuroborosZero.replicate_to_target st target_ip intel technique clone_id
      entanglement_key now).2.active_connections = st.active_connections ∧
    (OuroborosZero.replicate_to_target st target_ip intel technique clone_id
      entanglement_key now).2.clone_registry = st.clone_registry ∧
    (OuroborosZero.replicate_to_target st target_ip intel technique clone_id
      entanglement_key now).2.clones_db = st.clones_db ∧
    (OuroborosZero.replicate_to_target st target_ip intel technique clone_id
      entanglement_key now).2.qr = st.qr := by
  unfold OuroborosZero.replicate_to_target OuroborosZero.evaluate_target
  dsimp only
  rw [if_pos h]
  exact ⟨rfl, rfl, rfl, rfl, rfl⟩

/-- Intelligence snapshot of a well-defended target (firewall, IDS, patch
level current, hardening 0.9): its evaluated risk score is 0.844 > 0.7. -/
def highRiskIntel : TargetIntel :=
  ⟨"10.0.0.9", "t0", ⟨"Linux", "CentOS 8", []⟩, [], [], [],
   ⟨true, true, "current", 9/10, "high"⟩, ⟨"10.0.0.0/24", "10.0.0.1", 0, "flat"⟩⟩

/-- Fresh orchestrator state over empty stores for the C6 instance. -/
def orchState0 : OrchState :=
  ⟨"OUROBOROS-20240101000000", fun _ => none, [], [], 6/10, fun _ => none,
   fun _ => none, ⟨fun _ => none, fun _ => none⟩⟩

/-- Concrete instance of C6: replicating to the well-defended target fails
and leaves connections, registry, table and replicator state unchanged. -/
theorem replicate_to_target_high_risk_spec_witness :
    (OuroborosZero.replicate_to_target orchState0 "10.0.0.9" highRiskIntel
      "proxy_chaining" "QC-0000000000000000" "k" "t1").1 = false ∧
    (OuroborosZero.replicate_to_target orchState0 "10.0.0.9" highRiskIntel
      "proxy_chaining" "QC-0000000000000000" "k" "t1").2.active_connections =
      orchState0.active_connections ∧
    (OuroborosZero.replicate_to_target orchState0 "10.0.0.9" highRiskIntel
      "proxy_chaining" "QC-0000000000000000" "k" "t1").2.clone_registry =
      orchState0.clone_registry ∧
    (OuroborosZero.replicate_to_target orchState0 "10.0.0.9" highRiskIntel
      "proxy_chaining" "QC-0000000000000000" "k" "t1").2.clones_db =
      orchState0.clones_db ∧
    (OuroborosZero.replicate_to_target orchState0 "10.0.0.9" highRiskIntel
      "proxy_chaining" "QC-0000000000000000" "k" "t1").2.qr = orchState0.qr :=
  replicate_to_target_high_risk_spec orchState0 "10.0.0.9" highRiskIntel
    "proxy_chaining" "QC-0000000000000000" "k" "t1" (by
      norm_num [orchState0, highRiskIntel, AIDecisionEngine.evaluate_target,
        AIDecisionEngine.extract_features, AIDecisionEngine.assess_security_risk,
        AIDecisionEngine.assess_detection_risk, AIDecisionEngine.patch_factor,
        AIDecisionEngine.predict_success, AIDecisionEngine.patch_penalty,
        AIDecisionEngine.assess_strategic_value, AIDecisionEngine.service_value,
        AIDecisionEngine.make_recommendation, round3, round_eq])

/-! ## Public-Symbol Aggregator (src/__init__.py) -/

/-- The `__all__` export list of the package (src/__init__.py 19-25). -/
def packageAll : List String :=
  ["AutonomousReplicator", "QuantumReplicator", "StealthModule",
   "AIDecisionEngine", "DatabaseHandler"]

/-- The public class names the package's modules define and that
src/__init__.py imports (lines 13-17): the orchestrator `OuroborosZero` and
the four component classes. -/
def packageDefinedClasses : List String :=
  ["OuroborosZero", "QuantumReplicator", "StealthModule",
   "AIDecisionEngine", "DatabaseHandler"]

/-! ## Claim C9: package surface versus defined classes -/

/-- C9 (failing input).  The export list names `AutonomousReplicator`,
which no module of the package defines — the orchestrator class is
`OuroborosZero`, imported but absent from the export list — so the
package's surface is not exactly the defined public types and one exported
name resolves to nothing. -/
theorem package_export_gap :
    "AutonomousReplicator" ∈ packageAll ∧
    "AutonomousReplicator" ∉ packageDefinedClasses ∧
    "OuroborosZero" ∈ packageDefinedClasses ∧
    "OuroborosZero" ∉ packageAll := by decide
